import Mathlib

/-!
Shallow embedding of the urngd daemon (src/urngd.c, the current variant of
the file).  Machine buffers are modelled as `List Nat` of byte values; the
kernel ioctl, the jitter-entropy library calls and the dispatcher are
modelled as oracle parameters, and every externally visible effect of the
code (library reads, the ioctl request, log lines, entering the event loop)
is recorded in an explicit action trace.
-/

namespace Urngd

/-- Model of `struct rand_pool_info` from `<linux/random.h>`: the injection
request handed to `ioctl(fd, RNDADDENTROPY, rpi)`.  `entropy_count` is in
bits, `buf_size` in bytes, `buf` is the payload.  The daemon allocates it
once with capacity `ENTROPYBYTES * OVERSAMPLINGFACTOR` payload bytes. -/
structure rand_pool_info where
  entropy_count : Nat
  buf_size : Nat
  buf : List Nat
  deriving Repr, DecidableEq

/-- Constant `ENTROPYBYTES = 32` (urngd.c). -/
def ENTROPYBYTES : Nat := 32

/-- Constant `OVERSAMPLINGFACTOR = 2` (urngd.c). -/
def OVERSAMPLINGFACTOR : Nat := 2

/-- Value of `sizeof(buf)` for the local buffer `char buf[ENTROPYBYTES *
OVERSAMPLINGFACTOR]` in `gather_entropy`, and the payload capacity of the
`rand_pool_info` allocation (`ENTROPYPOOLBYTES` minus the header). -/
def jentBufBytes : Nat := ENTROPYBYTES * OVERSAMPLINGFACTOR

/-- The error log lines of the daemon (its ERROR calls). -/
inductive ErrMsg where
  | injectEntropy
  | readEntropy
  | shortInject
  | jentInit
  | jentAlloc
  | rpiAlloc
  | devRandomOpen
  deriving Repr, DecidableEq

/-- The debug log lines of the daemon (its DEBUG calls). -/
inductive DbgMsg where
  | injected
  | fedEntropy
  | lowEntropySignal
  deriving Repr, DecidableEq

/-- Externally visible actions of the daemon, in program order.
`jentRead n r` is a call `jent_read_entropy(ec, buf, n)` with outcome `r`
(`none` models a negative return, `some bytes` a successful fill);
`memsetCaller n` is the `memset(buf, 0, len)` wipe of the caller buffer
inside `write_entropy`; `ioctlRnd req r` is the `RNDADDENTROPY` ioctl with
the request value `req` at the moment of the call and kernel return `r`;
`uloopEnter` marks the call to `uloop_run()`. -/
inductive Action where
  | jentRead (n : Nat) (r : Option (List Nat))
  | memsetCaller (n : Nat)
  | ioctlRnd (req : rand_pool_info) (r : Int)
  | logErr (msg : ErrMsg)
  | logDbg (lvl : Nat) (msg : DbgMsg)
  | logStarted
  | uloopEnter
  deriving Repr, DecidableEq

/-- Result of `write_entropy`: the returned byte count, the caller's
source buffer and the daemon's `rand_pool_info` as they stand on return,
and the trace of effects. -/
structure WriteEntropyResult where
  written : Nat
  buf : List Nat
  rpi : rand_pool_info
  trace : List Action
  deriving Repr, DecidableEq

/-- Model of `write_entropy(u, buf, len, entropy_bytes)` (urngd.c lines 296-321).
In source order: set `entropy_count = entropy_bytes * 8` and
`buf_size = len`, `memcpy` the first `len` bytes of `buf` into the request
payload, `memset(buf, 0, len)` the caller buffer, issue the ioctl, log and
pick the return value, then zero `entropy_count`, `buf_size` and the first
`len` payload bytes.  `ioctlRet` is the kernel's return value. -/
def write_entropy (ioctlRet : Int) (rpi0 : rand_pool_info) (buf : List Nat)
    (len entropy_bytes : Nat) : WriteEntropyResult :=
  let rpi1 : rand_pool_info :=
    { entropy_count := entropy_bytes * 8
      buf_size := len
      buf := buf.take len ++ rpi0.buf.drop len }
  let buf1 := List.replicate len 0 ++ buf.drop len
  let written := if ioctlRet < 0 then 0 else len
  let tr := if ioctlRet < 0 then
      [Action.logErr ErrMsg.injectEntropy]
    else
      [Action.logDbg 1 DbgMsg.injected]
  let rpi2 : rand_pool_info :=
    { entropy_count := 0
      buf_size := 0
      buf := List.replicate len 0 ++ rpi1.buf.drop len }
  { written := written
    buf := buf1
    rpi := rpi2
    trace := Action.memsetCaller len :: Action.ioctlRnd rpi1 ioctlRet :: tr }

/-- Result of `gather_entropy`: the returned byte count, the contents of
the local `char buf[64]` at the point it goes out of scope, the daemon's
`rand_pool_info` on return, and the trace of effects. -/
structure GatherResult where
  ret : Nat
  buf : List Nat
  rpi : rand_pool_info
  trace : List Action
  deriving Repr, DecidableEq

/-- Model of `gather_entropy(u)` (urngd.c lines 323-345).  `jent` is the outcome of
`jent_read_entropy(u->ec, buf, sizeof(buf))`: `none` models a negative
return (per the spec's interface contract the estimator either fills the
whole buffer or fails producing nothing, so the buffer is left as it was),
`some bytes` models success filling the buffer.  `buf0` is the
indeterminate initial content of the stack buffer, `ioctlRet` the kernel's
answer to the ioctl inside `write_entropy`. -/
def gather_entropy (jent : Option (List Nat)) (ioctlRet : Int)
    (rpi0 : rand_pool_info) (buf0 : List Nat) : GatherResult :=
  match jent with
  | none =>
    { ret := 0
      buf := buf0
      rpi := rpi0
      trace := [Action.jentRead jentBufBytes none,
                Action.logErr ErrMsg.readEntropy] }
  | some bytes =>
    let buf1 := bytes.take jentBufBytes ++ buf0.drop jentBufBytes
    let w := write_entropy ioctlRet rpi0 buf1 jentBufBytes ENTROPYBYTES
    let errTr := if jentBufBytes ≠ w.written then
        [Action.logErr ErrMsg.shortInject]
      else []
    let ret := if jentBufBytes ≠ w.written then w.written else jentBufBytes
    { ret := ret
      buf := List.replicate jentBufBytes 0 ++ w.buf.drop jentBufBytes
      rpi := w.rpi
      trace := Action.jentRead jentBufBytes (some bytes) :: w.trace ++ errTr
               ++ [Action.logDbg 2 DbgMsg.fedEntropy] }

/-- Oracle outcomes for one low-entropy cycle: the jitter-read outcome,
the kernel's ioctl return, and the indeterminate initial contents of the
stack buffer in `gather_entropy`. -/
structure CycleOracle where
  jent : Option (List Nat)
  ioctlRet : Int
  stackBuf : List Nat
  deriving Repr, DecidableEq

/-- Model of `low_entropy_cb` (urngd.c lines 347-353): log the signal, then run one
`gather_entropy` cycle. -/
def low_entropy_cb (o : CycleOracle) (rpi : rand_pool_info) : GatherResult :=
  let g := gather_entropy o.jent o.ioctlRet rpi o.stackBuf
  { g with trace := Action.logDbg 2 DbgMsg.lowEntropySignal :: g.trace }

/-- Model of `urngd_init(u)` (urngd.c lines 374-404), with the four fallible
external calls as oracles: `jent_entropy_init()` return value, success of
`jent_entropy_collector_alloc`, success of `malloc(ENTROPYPOOLBYTES)`, and
the fd from `open(DEV_RANDOM, O_WRONLY)` (failure when `fd < 1`).  Yields
whether initialization succeeded together with the error-log trace. -/
def urngd_init (jentInitRet : Int) (ecAllocOk rpiAllocOk : Bool)
    (openRet : Int) : Bool × List Action :=
  if jentInitRet ≠ 0 then (false, [Action.logErr ErrMsg.jentInit])
  else if !ecAllocOk then (false, [Action.logErr ErrMsg.jentAlloc])
  else if !rpiAllocOk then (false, [Action.logErr ErrMsg.rpiAlloc])
  else if openRet < 1 then (false, [Action.logErr ErrMsg.devRandomOpen])
  else (true, [])

/-- The `getopt(argc, argv, "d:S")` loop of `main` (urngd.c lines 431-444),
over argv words given as character lists.  `-S` selects stdout logging;
`-d` (with the level either attached, `-dN`, or as the next word) records
the debug level argument (the `atoi` of it is not modelled); `--` or a
word that is not an option stops option processing; any other option
character reaches the `default:` case, which calls `usage()` and makes
`main` return 1, modelled as `Except.error 1`.  Clustering of several
option characters in one word is not modelled (the two real clusters,
`-dN` and the single-letter `-S`, are).  Accumulates `(debug argument,
stdout flag)`. -/
def parse_args : List (List Char) → Option (List Char) → Bool →
    Except Int (Option (List Char) × Bool)
  | [], dbg, stdio => Except.ok (dbg, stdio)
  | a :: rest, dbg, stdio =>
    match a with
    | c :: c2 :: s =>
      if c ≠ '-' then Except.ok (dbg, stdio)
      else if c2 = '-' ∧ s = [] then Except.ok (dbg, stdio)
      else if c2 = 'S' ∧ s = [] then parse_args rest dbg true
      else if c2 = 'd' then
        (if s = [] then
          match rest with
          | lvl :: rest2 => parse_args rest2 (some lvl) stdio
          | [] => Except.error 1
        else parse_args rest (some s) stdio)
      else Except.error 1
    | _ => Except.ok (dbg, stdio)

/-- The dispatch loop `uloop_run()` modelled as delivering a list of
pool-low readiness events, each invoking `low_entropy_cb` with its own
oracle outcomes, threading the daemon's `rand_pool_info` through. -/
def uloop_run : List CycleOracle → rand_pool_info → rand_pool_info × List Action
  | [], rpi => (rpi, [])
  | o :: rest, rpi =>
    let g := low_entropy_cb o rpi
    let rest2 := uloop_run rest g.rpi
    (rest2.1, g.trace ++ rest2.2)

/-- Result of `main`: the process exit status and the trace of effects. -/
structure MainResult where
  exitCode : Int
  trace : List Action
  deriving Repr, DecidableEq

/-- Model of `main` (urngd.c lines 418-464): parse options (`usage()` makes it
return 1); `urngd_init`; on init failure `uloop_done()` and return -1;
otherwise log the version-stamped started line, run one unconditional
`gather_entropy`, enter `uloop_run()` (which dispatches `low_entropy_cb`
for each low-entropy event), then shut down and return 0.  `rpi0` is the
indeterminate content of the freshly malloc-ed request buffer, `first` the
oracle for the unconditional gather, `events` the oracles for the
dispatched cycles. -/
def main (args : List (List Char)) (jentInitRet : Int)
    (ecAllocOk rpiAllocOk : Bool) (openRet : Int) (rpi0 : rand_pool_info)
    (first : CycleOracle) (events : List CycleOracle) : MainResult :=
  match parse_args args none false with
  | Except.error code => { exitCode := code, trace := [] }
  | Except.ok _cfg =>
    let ini := urngd_init jentInitRet ecAllocOk rpiAllocOk openRet
    if ini.1 then
      let g := gather_entropy first.jent first.ioctlRet rpi0 first.stackBuf
      let run := uloop_run events g.rpi
      { exitCode := 0
        trace := ini.2 ++ [Action.logStarted] ++ g.trace
                 ++ [Action.uloopEnter] ++ run.2 }
    else
      { exitCode := -1, trace := ini.2 }

/-! ### Helper lemmas -/

/-- Any `RNDADDENTROPY` request recorded in a `write_entropy` trace is the
one built from its arguments: `entropy_count = entropy_bytes * 8` and
`buf_size = len`. -/
theorem write_entropy_ioctl_shape {i : Int} {rpi0 : rand_pool_info}
    {buf : List Nat} {len eb : Nat} {req : rand_pool_info} {r : Int}
    (h : Action.ioctlRnd req r ∈ (write_entropy i rpi0 buf len eb).trace) :
    req.entropy_count = eb * 8 ∧ req.buf_size = len ∧ r = i := by
  by_cases hi : i < 0 <;> simp [write_entropy, hi] at h <;>
    obtain ⟨h1, h2⟩ := h <;> subst h1 <;> subst h2 <;> exact ⟨rfl, rfl, rfl⟩

/-- Any `RNDADDENTROPY` request recorded in a `gather_entropy` trace
carries exactly 256 bits of claimed entropy and a 64-byte payload. -/
theorem gather_entropy_ioctl_shape {jent : Option (List Nat)} {i : Int}
    {rpi0 : rand_pool_info} {buf0 : List Nat} {req : rand_pool_info} {r : Int}
    (h : Action.ioctlRnd req r ∈ (gather_entropy jent i rpi0 buf0).trace) :
    req.entropy_count = 256 ∧ req.buf_size = 64 := by
  match jent with
  | none => simp [gather_entropy] at h
  | some bytes =>
    by_cases hi : i < 0 <;>
      simp [gather_entropy, write_entropy, jentBufBytes, ENTROPYBYTES,
        OVERSAMPLINGFACTOR, hi] at h <;>
      obtain ⟨h1, h2⟩ := h <;> subst h1 <;> exact ⟨rfl, rfl⟩

/-- Lemma: `urngd_init` logs at most an error line: its trace never contains an
ioctl and never contains the dispatch-loop entry marker. -/
theorem urngd_init_trace_only_logs (j : Int) (e p : Bool) (o : Int)
    (a : Action) (ha : a ∈ (urngd_init j e p o).2) :
    ∃ msg, a = Action.logErr msg := by
  unfold urngd_init at ha
  split_ifs at ha <;> simp at ha <;> exact ⟨_, ha⟩

/-- Lemma: `urngd_init` succeeds exactly when all four external calls succeed. -/
theorem urngd_init_ok_iff (j : Int) (e p : Bool) (o : Int) :
    (urngd_init j e p o).1 = true ↔ (j = 0 ∧ e = true ∧ p = true ∧ 1 ≤ o) := by
  unfold urngd_init
  split_ifs with h1 h2 h3 h4 <;> simp_all

/-! ### Claim theorems -/

/-- C3: after every call to `write_entropy`, whether the privileged ioctl
succeeded or failed, the request structure's `entropy_count` and
`buf_size` fields are zero and its byte payload (the `len` bytes copied
in) is all zero before the function returns. -/
theorem write_entropy_request_wiped (i : Int) (rpi0 : rand_pool_info)
    (buf : List Nat) (len eb : Nat) :
    (write_entropy i rpi0 buf len eb).rpi.entropy_count = 0 ∧
    (write_entropy i rpi0 buf len eb).rpi.buf_size = 0 ∧
    (write_entropy i rpi0 buf len eb).rpi.buf.take len = List.replicate len 0 := by
  refine ⟨rfl, rfl, ?_⟩
  show (List.replicate len 0 ++ _).take len = List.replicate len 0
  rw [List.take_left' (List.length_replicate len 0)]

/-- C10: `write_entropy` wipes the caller's source buffer right after
copying it into the request payload and before issuing the ioctl: the
trace starts with the caller-buffer memset followed by the ioctl whose
request already carries the copied bytes; hence on return the caller's
buffer is all zero regardless of the ioctl outcome. -/
theorem write_entropy_caller_buffer_wiped (i : Int) (rpi0 : rand_pool_info)
    (buf : List Nat) (len eb : Nat) (h : buf.length = len) :
    (write_entropy i rpi0 buf len eb).buf = List.replicate len 0 ∧
    ∃ tail, (write_entropy i rpi0 buf len eb).trace =
      Action.memsetCaller len ::
        Action.ioctlRnd ⟨eb * 8, len, buf ++ rpi0.buf.drop len⟩ i :: tail := by
  subst h
  constructor
  · simp [write_entropy]
  · refine ⟨(if i < 0 then [Action.logErr ErrMsg.injectEntropy]
        else [Action.logDbg 1 DbgMsg.injected]), ?_⟩
    simp [write_entropy]

/-- C10 witness: concrete two-byte buffer, rejected injection. -/
theorem write_entropy_caller_buffer_wiped_witness :
    ([1, 2] : List Nat).length = 2 ∧
    ((write_entropy (-1) ⟨0, 0, []⟩ [1, 2] 2 1).buf = List.replicate 2 0 ∧
     ∃ tail, (write_entropy (-1) ⟨0, 0, []⟩ [1, 2] 2 1).trace =
       Action.memsetCaller 2 ::
         Action.ioctlRnd ⟨1 * 8, 2, [1, 2] ++ ([] : List Nat).drop 2⟩ (-1) :: tail) :=
  ⟨rfl, write_entropy_caller_buffer_wiped (-1) ⟨0, 0, []⟩ [1, 2] 2 1 rfl⟩

/-- C4: a negative ioctl return is logged and makes `write_entropy` return
0 bytes written; a non-negative return makes it return the number of
payload bytes submitted (`len = buf_size`).  That neither outcome
terminates the daemon is proved at the `main` level (theorem for C7). -/
theorem write_entropy_ioctl_error_handling (i : Int) (rpi0 : rand_pool_info)
    (buf : List Nat) (len eb : Nat) :
    (i < 0 → (write_entropy i rpi0 buf len eb).written = 0 ∧
      Action.logErr ErrMsg.injectEntropy ∈ (write_entropy i rpi0 buf len eb).trace) ∧
    (0 ≤ i → (write_entropy i rpi0 buf len eb).written = len) := by
  constructor
  · intro hi
    simp [write_entropy, hi]
  · intro hi
    simp [write_entropy, not_lt.mpr hi]

/-- C4 witness: concrete rejected call returns 0 and logs; concrete
accepted call returns the submitted length. -/
theorem write_entropy_ioctl_error_handling_witness :
    ((-1 : Int) < 0 ∧
      ((write_entropy (-1) ⟨0, 0, []⟩ [5] 1 1).written = 0 ∧
       Action.logErr ErrMsg.injectEntropy ∈ (write_entropy (-1) ⟨0, 0, []⟩ [5] 1 1).trace)) ∧
    ((0 : Int) ≤ 0 ∧ (write_entropy 0 ⟨0, 0, []⟩ [5] 1 1).written = 1) :=
  ⟨⟨by decide, (write_entropy_ioctl_error_handling (-1) ⟨0, 0, []⟩ [5] 1 1).1 (by decide)⟩,
   ⟨by decide, (write_entropy_ioctl_error_handling 0 ⟨0, 0, []⟩ [5] 1 1).2 (by decide)⟩⟩

/-- C6: when the jitter pull fails, `gather_entropy` logs the failure and
returns 0; its whole trace is the failed read plus the error log — so no
injection request is submitted — and the daemon's request structure is
untouched.  That the daemon keeps running is proved at the `main` level
(theorem for C7). -/
theorem gather_entropy_jent_failure (i : Int) (rpi0 : rand_pool_info)
    (buf0 : List Nat) :
    (gather_entropy none i rpi0 buf0).ret = 0 ∧
    (gather_entropy none i rpi0 buf0).trace =
      [Action.jentRead 64 none, Action.logErr ErrMsg.readEntropy] ∧
    (gather_entropy none i rpi0 buf0).rpi = rpi0 :=
  ⟨rfl, rfl, rfl⟩

/-- Any `RNDADDENTROPY` request recorded during the dispatch loop carries
exactly 256 bits of claimed entropy and a 64-byte payload. -/
theorem uloop_run_ioctl_shape (events : List CycleOracle) (rpi : rand_pool_info)
    {req : rand_pool_info} {r : Int}
    (h : Action.ioctlRnd req r ∈ (uloop_run events rpi).2) :
    req.entropy_count = 256 ∧ req.buf_size = 64 := by
  induction events generalizing rpi with
  | nil => simp [uloop_run] at h
  | cons o rest ih =>
    rw [uloop_run] at h
    simp only [low_entropy_cb, List.mem_append, List.mem_cons] at h
    rcases h with (h | h) | h
    · exact absurd h (by simp)
    · exact gather_entropy_ioctl_shape h
    · exact ih _ h

/-- C1: for every successful jitter pull (the estimator filling the whole
64-byte buffer), every injection request submitted to the kernel during
that `gather_entropy` cycle has `entropy_count = 256` bits and
`buf_size = 64` bytes, at least one such request is submitted, and the
64-byte source buffer is all zero when `gather_entropy` returns — whether
the kernel injection succeeded or failed (`i` is arbitrary). -/
theorem gather_entropy_request_shape_and_source_wipe
    (bytes : List Nat) (i : Int) (rpi0 : rand_pool_info) (buf0 : List Nat)
    (hb : bytes.length = 64) (h0 : buf0.length = 64) :
    (∀ req r, Action.ioctlRnd req r ∈ (gather_entropy (some bytes) i rpi0 buf0).trace →
        req.entropy_count = 256 ∧ req.buf_size = 64) ∧
    (∃ req r, Action.ioctlRnd req r ∈ (gather_entropy (some bytes) i rpi0 buf0).trace) ∧
    (gather_entropy (some bytes) i rpi0 buf0).buf = List.replicate 64 0 := by
  have hj : jentBufBytes = 64 := rfl
  have hd0 : List.drop 64 buf0 = [] := by rw [← h0]; exact List.drop_length buf0
  have ht : List.take 64 bytes = bytes := by rw [← hb]; exact List.take_length bytes
  have hdb : List.drop 64 bytes = [] := by rw [← hb]; exact List.drop_length bytes
  have hdr : List.drop 64 (List.replicate 64 (0 : Nat)) = [] := by decide
  refine ⟨fun req r h => gather_entropy_ioctl_shape h, ?_, ?_⟩
  · refine ⟨⟨ENTROPYBYTES * 8, jentBufBytes,
        List.take jentBufBytes (List.take jentBufBytes bytes ++ List.drop jentBufBytes buf0)
          ++ List.drop jentBufBytes rpi0.buf⟩, i, ?_⟩
    simp only [gather_entropy, write_entropy, List.cons_append, List.mem_cons]
    exact Or.inr (Or.inr (Or.inl trivial))
  · simp [gather_entropy, write_entropy, hj, hd0, ht, hdb, hdr]

/-- C1 witness: a concrete successful pull with a rejected injection. -/
theorem gather_entropy_request_shape_and_source_wipe_witness :
    (List.replicate 64 (1 : Nat)).length = 64 ∧
    (List.replicate 64 (2 : Nat)).length = 64 ∧
    ((∀ req r, Action.ioctlRnd req r ∈
          (gather_entropy (some (List.replicate 64 1)) (-1)
            ⟨0, 0, List.replicate 64 0⟩ (List.replicate 64 2)).trace →
        req.entropy_count = 256 ∧ req.buf_size = 64) ∧
     (∃ req r, Action.ioctlRnd req r ∈
          (gather_entropy (some (List.replicate 64 1)) (-1)
            ⟨0, 0, List.replicate 64 0⟩ (List.replicate 64 2)).trace) ∧
     (gather_entropy (some (List.replicate 64 1)) (-1)
        ⟨0, 0, List.replicate 64 0⟩ (List.replicate 64 2)).buf =
       List.replicate 64 0) :=
  ⟨by simp, by simp,
   gather_entropy_request_shape_and_source_wipe (List.replicate 64 1) (-1)
     ⟨0, 0, List.replicate 64 0⟩ (List.replicate 64 2) (by simp) (by simp)⟩

/-- C2: the secure-wipe contract holds on every control path of
`gather_entropy` and `write_entropy`: when the jitter read fails, no
source bytes ever enter the local source buffer or the request buffer
(both are exactly as they were before the call), and when it succeeds
both the local source buffer and the request payload buffer are all zero
when `gather_entropy` returns, whatever the ioctl outcome. -/
theorem gather_entropy_secure_wipe_all_paths
    (jent : Option (List Nat)) (i : Int) (rpi0 : rand_pool_info)
    (buf0 : List Nat) (h0 : buf0.length = 64) (hr : rpi0.buf.length = 64)
    (hb : ∀ bytes, jent = some bytes → bytes.length = 64) :
    (jent = none →
        (gather_entropy jent i rpi0 buf0).buf = buf0 ∧
        (gather_entropy jent i rpi0 buf0).rpi = rpi0) ∧
    (∀ bytes, jent = some bytes →
        (gather_entropy jent i rpi0 buf0).buf = List.replicate 64 0 ∧
        (gather_entropy jent i rpi0 buf0).rpi.buf = List.replicate 64 0) := by
  constructor
  · rintro rfl
    exact ⟨rfl, rfl⟩
  · rintro bytes rfl
    have hlen := hb bytes rfl
    have hj : jentBufBytes = 64 := rfl
    have hd0 : List.drop 64 buf0 = [] := by rw [← h0]; exact List.drop_length buf0
    have ht : List.take 64 bytes = bytes := by rw [← hlen]; exact List.take_length bytes
    have hdb : List.drop 64 bytes = [] := by rw [← hlen]; exact List.drop_length bytes
    have hdrp : List.drop 64 rpi0.buf = [] := by rw [← hr]; exact List.drop_length rpi0.buf
    have hdr : List.drop 64 (List.replicate 64 (0 : Nat)) = [] := by decide
    constructor
    · simp [gather_entropy, write_entropy, hj, hd0, ht, hdb, hdr]
    · simp [gather_entropy, write_entropy, hj, hd0, ht, hdb, hdrp, hdr]

/-- C2 witness: concrete failing pull leaves both buffers untouched;
concrete successful pull (with rejected injection) leaves both all-zero. -/
theorem gather_entropy_secure_wipe_all_paths_witness :
    (List.replicate 64 (3 : Nat)).length = 64 ∧
    (List.replicate 64 (4 : Nat)).length = 64 ∧
    (∀ bytes, (some (List.replicate 64 (5 : Nat)) : Option (List Nat)) = some bytes →
        bytes.length = 64) ∧
    ((some (List.replicate 64 (5 : Nat)) : Option (List Nat)) = none →
        (gather_entropy (some (List.replicate 64 5)) (-1)
          ⟨7, 7, List.replicate 64 4⟩ (List.replicate 64 3)).buf = List.replicate 64 3 ∧
        (gather_entropy (some (List.replicate 64 5)) (-1)
          ⟨7, 7, List.replicate 64 4⟩ (List.replicate 64 3)).rpi = ⟨7, 7, List.replicate 64 4⟩) ∧
    (∀ bytes, (some (List.replicate 64 (5 : Nat)) : Option (List Nat)) = some bytes →
        (gather_entropy (some (List.replicate 64 5)) (-1)
          ⟨7, 7, List.replicate 64 4⟩ (List.replicate 64 3)).buf = List.replicate 64 0 ∧
        (gather_entropy (some (List.replicate 64 5)) (-1)
          ⟨7, 7, List.replicate 64 4⟩ (List.replicate 64 3)).rpi.buf = List.replicate 64 0) :=
  ⟨by simp, by simp,
   fun bytes hb => by
     obtain rfl : List.replicate 64 (5 : Nat) = bytes := Option.some.inj hb
     simp,
   gather_entropy_secure_wipe_all_paths (some (List.replicate 64 5)) (-1)
     ⟨7, 7, List.replicate 64 4⟩ (List.replicate 64 3) (by simp) (by simp)
     (fun bytes hb => by
       obtain rfl : List.replicate 64 (5 : Nat) = bytes := Option.some.inj hb
       simp)⟩

/-- C8: every `RNDADDENTROPY` request submitted during any run of `main` —
arbitrary arguments, initialization outcomes, first-cycle oracle and
dispatch-loop events — satisfies the invariant
`entropy_count ≤ 8 * buf_size`. -/
theorem main_requests_respect_entropy_invariant
    (args : List (List Char)) (j : Int) (e p : Bool) (o : Int)
    (rpi0 : rand_pool_info) (first : CycleOracle) (events : List CycleOracle)
    (req : rand_pool_info) (r : Int)
    (h : Action.ioctlRnd req r ∈ (main args j e p o rpi0 first events).trace) :
    req.entropy_count ≤ 8 * req.buf_size := by
  unfold main at h
  cases hp : parse_args args none false with
  | error code => rw [hp] at h; simp at h
  | ok cfg =>
    rw [hp] at h
    by_cases hok : (urngd_init j e p o).1 = true
    · simp only [hok, if_true, List.mem_append, List.mem_cons,
        List.mem_singleton] at h
      rcases h with (((h | h | h) | h) | h | h) | h
      · obtain ⟨msg, hmsg⟩ := urngd_init_trace_only_logs j e p o _ h
        cases hmsg
      · exact absurd h (by simp)
      · exact absurd h (by simp)
      · obtain ⟨h1, h2⟩ := gather_entropy_ioctl_shape h
        rw [h1, h2]
        norm_num
      · exact absurd h (by simp)
      · exact absurd h (by simp)
      · obtain ⟨h1, h2⟩ := uloop_run_ioctl_shape events _ h
        rw [h1, h2]
        norm_num
    · simp only [hok, if_false, Bool.false_eq_true] at h
      obtain ⟨msg, hmsg⟩ := urngd_init_trace_only_logs j e p o _ h
      cases hmsg

/-- C8 witness: a concrete full run containing a submitted request. -/
theorem main_requests_respect_entropy_invariant_witness :
    Action.ioctlRnd ⟨256, 64, List.replicate 64 1⟩ 0 ∈
      (main [] 0 true true 1 ⟨0, 0, List.replicate 64 0⟩
        ⟨some (List.replicate 64 1), 0, List.replicate 64 2⟩ []).trace ∧
    (256 : Nat) ≤ 8 * 64 :=
  ⟨by decide,
   main_requests_respect_entropy_invariant [] 0 true true 1
     ⟨0, 0, List.replicate 64 0⟩ ⟨some (List.replicate 64 1), 0, List.replicate 64 2⟩
     [] ⟨256, 64, List.replicate 64 1⟩ 0 (by decide)⟩

/-- C7: given well-formed arguments, `main` exits with status 0 exactly
when all four initialization steps succeed (so any initialization failure
gives the non-zero status -1), and it enters the dispatch loop exactly
when initialization succeeds; since the events of the loop are arbitrary,
no steady-state error (jitter failure, kernel rejection) affects the exit
status or terminates the run. -/
theorem main_only_init_failures_fatal
    (args : List (List Char)) (cfg : Option (List Char) × Bool)
    (j : Int) (e p : Bool) (o : Int) (rpi0 : rand_pool_info)
    (first : CycleOracle) (events : List CycleOracle)
    (hp : parse_args args none false = Except.ok cfg) :
    ((main args j e p o rpi0 first events).exitCode = 0 ↔
        (j = 0 ∧ e = true ∧ p = true ∧ 1 ≤ o)) ∧
    (Action.uloopEnter ∈ (main args j e p o rpi0 first events).trace ↔
        (j = 0 ∧ e = true ∧ p = true ∧ 1 ≤ o)) := by
  unfold main
  rw [hp]
  by_cases hok : (urngd_init j e p o).1 = true
  · have hrhs := (urngd_init_ok_iff j e p o).mp hok
    simp only [hok, if_true]
    constructor
    · simp [hrhs]
    · constructor
      · intro _; exact hrhs
      · intro _; simp
  · have hrhs : ¬(j = 0 ∧ e = true ∧ p = true ∧ 1 ≤ o) :=
      fun hc => hok ((urngd_init_ok_iff j e p o).mpr hc)
    simp only [hok, if_false, Bool.false_eq_true]
    constructor
    · simp [hrhs]
    · constructor
      · intro hmem
        obtain ⟨msg, hmsg⟩ := urngd_init_trace_only_logs j e p o _ hmem
        cases hmsg
      · intro hc; exact absurd hc hrhs

/-- C7 witness: with a failed estimator init the exit status is non-zero
and the dispatch loop is never entered. -/
theorem main_only_init_failures_fatal_witness :
    parse_args [] none false = Except.ok (none, false) ∧
    (((main [] 5 true true 1 ⟨0, 0, []⟩ ⟨none, 0, []⟩ []).exitCode = 0 ↔
        ((5 : Int) = 0 ∧ true = true ∧ true = true ∧ (1 : Int) ≤ 1)) ∧
     (Action.uloopEnter ∈ (main [] 5 true true 1 ⟨0, 0, []⟩ ⟨none, 0, []⟩ []).trace ↔
        ((5 : Int) = 0 ∧ true = true ∧ true = true ∧ (1 : Int) ≤ 1))) :=
  ⟨rfl, main_only_init_failures_fatal [] (none, false) 5 true true 1
    ⟨0, 0, []⟩ ⟨none, 0, []⟩ [] rfl⟩

/-- C9: after successful parsing and initialization, `main`'s trace is the
version-stamped started line, then the trace of exactly one unconditional
`gather_entropy` cycle (whatever its oracle outcomes), then entry into the
dispatch loop — the first gather waits for no readiness notification. -/
theorem main_startup_single_gather_before_loop
    (args : List (List Char)) (cfg : Option (List Char) × Bool)
    (j : Int) (e p : Bool) (o : Int) (rpi0 : rand_pool_info)
    (first : CycleOracle) (events : List CycleOracle)
    (hp : parse_args args none false = Except.ok cfg)
    (hj : j = 0) (he : e = true) (hq : p = true) (ho : 1 ≤ o) :
    (main args j e p o rpi0 first events).trace =
      Action.logStarted
        :: ((gather_entropy first.jent first.ioctlRet rpi0 first.stackBuf).trace
          ++ Action.uloopEnter
          :: (uloop_run events
              (gather_entropy first.jent first.ioctlRet rpi0 first.stackBuf).rpi).2) := by
  have hok : (urngd_init j e p o).1 = true :=
    (urngd_init_ok_iff j e p o).mpr ⟨hj, he, hq, ho⟩
  have htr : (urngd_init j e p o).2 = [] := by
    subst hj he hq
    unfold urngd_init
    simp [not_lt.mpr ho]
  unfold main
  rw [hp]
  simp [hok, htr]

/-- C9 witness: a concrete successful startup with a failing first pull
and an empty dispatch loop. -/
theorem main_startup_single_gather_before_loop_witness :
    parse_args [] none false = Except.ok (none, false) ∧ (0 : Int) = 0 ∧
    true = true ∧ true = true ∧ (1 : Int) ≤ 1 ∧
    (main [] 0 true true 1 ⟨0, 0, []⟩ ⟨none, 0, []⟩ []).trace =
      Action.logStarted
        :: ((gather_entropy (CycleOracle.mk none 0 []).jent
              (CycleOracle.mk none 0 []).ioctlRet ⟨0, 0, []⟩
              (CycleOracle.mk none 0 []).stackBuf).trace
          ++ Action.uloopEnter
          :: (uloop_run []
              (gather_entropy (CycleOracle.mk none 0 []).jent
                (CycleOracle.mk none 0 []).ioctlRet ⟨0, 0, []⟩
                (CycleOracle.mk none 0 []).stackBuf).rpi).2) :=
  ⟨rfl, rfl, rfl, rfl, by decide,
   main_startup_single_gather_before_loop [] (none, false) 0 true true 1
     ⟨0, 0, []⟩ ⟨none, 0, []⟩ [] rfl rfl rfl rfl (by decide)⟩

/-- C5 counterexample: the daemon has no CLI flag supplying an external
entropy-source path.  Attempting one — here `-f /dev/hwrng` — hits the
`default:` case of the getopt loop, so `main` prints usage and exits with
status 1 instead of configuring an external source. -/
theorem no_external_source_flag :
    parse_args [['-', 'f'], ['/', 'd', 'e', 'v', '/', 'h', 'w', 'r', 'n', 'g']]
      none false = Except.error 1 ∧
    (main [['-', 'f'], ['/', 'd', 'e', 'v', '/', 'h', 'w', 'r', 'n', 'g']]
      0 true true 1 ⟨0, 0, []⟩ ⟨none, 0, []⟩ []).exitCode = 1 :=
  ⟨rfl, rfl⟩

/-- C5 amended: the daemon supports no external entropy source.  The only
options the CLI accepts are `-d <level>` and `-S`; any other option
character makes `main` print usage and exit with status 1.  On a
low-entropy signal the engine reads only from the jitter source — the one
read of a cycle is the 64-byte jitter read, and every request it submits
is the fixed 256-bit / 64-byte one, never a variable-size 1:1-credited
read of up to 1024 bytes. -/
theorem cli_and_engine_have_no_external_source
    (c : Char) (s : List Char) (rest : List (List Char))
    (dbg : Option (List Char)) (stdio : Bool)
    (hc1 : c ≠ 'd') (hc2 : c ≠ 'S') (hc3 : c ≠ '-')
    (oc : CycleOracle) (rpi : rand_pool_info) :
    parse_args (('-' :: c :: s) :: rest) dbg stdio = Except.error 1 ∧
    (∀ n rr, Action.jentRead n rr ∈ (low_entropy_cb oc rpi).trace → n = 64) ∧
    (∀ req r, Action.ioctlRnd req r ∈ (low_entropy_cb oc rpi).trace →
        req.entropy_count = 256 ∧ req.buf_size = 64) := by
  refine ⟨?_, ?_, ?_⟩
  · rw [parse_args.eq_def]
    simp [hc1, hc2, hc3]
  · intro n rr hn
    obtain ⟨jent, ioc, sb⟩ := oc
    cases jent with
    | none =>
      simp [low_entropy_cb, gather_entropy, jentBufBytes, ENTROPYBYTES,
        OVERSAMPLINGFACTOR] at hn
      exact hn.1
    | some bytes =>
      by_cases hi : ioc < 0 <;>
        simp [low_entropy_cb, gather_entropy, write_entropy, jentBufBytes,
          ENTROPYBYTES, OVERSAMPLINGFACTOR, hi] at hn <;>
        exact hn.1
  · intro req r hreq
    simp only [low_entropy_cb, List.mem_cons] at hreq
    rcases hreq with hreq | hreq
    · exact absurd hreq (by simp)
    · exact gather_entropy_ioctl_shape hreq

/-- C5 amended witness: concrete unknown flag `-f`, and a concrete cycle
with a successful pull and accepted injection. -/
theorem cli_and_engine_have_no_external_source_witness :
    ('f' ≠ 'd') ∧ ('f' ≠ 'S') ∧ ('f' ≠ '-') ∧
    (parse_args [['-', 'f']] none false = Except.error 1 ∧
     (∀ n rr, Action.jentRead n rr ∈
         (low_entropy_cb ⟨some (List.replicate 64 1), 0, List.replicate 64 2⟩
           ⟨0, 0, List.replicate 64 0⟩).trace → n = 64) ∧
     (∀ req r, Action.ioctlRnd req r ∈
         (low_entropy_cb ⟨some (List.replicate 64 1), 0, List.replicate 64 2⟩
           ⟨0, 0, List.replicate 64 0⟩).trace →
         req.entropy_count = 256 ∧ req.buf_size = 64)) :=
  ⟨by decide, by decide, by decide,
   cli_and_engine_have_no_external_source 'f' [] [] none false
     (by decide) (by decide) (by decide)
     ⟨some (List.replicate 64 1), 0, List.replicate 64 2⟩
     ⟨0, 0, List.replicate 64 0⟩⟩

end Urngd
